import Mathlib

/-!
# PathFinderPro borrower qualification engine — shallow embedding

This file embeds the two implementations of the qualification math found in
the repository:

* the server-side `calculateBorrowerMetrics` of `src/routes/api.js`
  (its local constants become top-level definitions on `Borrower`, and the
  `calculateMaxPurchase` closure becomes a two-argument definition), and
* the client-side calculation functions of `src/public/js/app.js`
  (`calculateEmployerIncome`, `updateIncomeCalculations` /
  `getMonthlyIncome`, `updatePropertyCalculations`, `calculateMaxPurchase`).

JavaScript numbers are modelled by `ℚ`; a form/JSON field that is missing,
null, or fails `parseFloat` is modelled as `none`.  The idiom
`parseFloat(x) || d` is modelled by `jsNum`: it yields the default `d` both
when the field is absent/unparseable (`NaN` is falsy) and when it parses to
`0` (also falsy).  The literal `4.333` is the exact rational `4333/1000`,
`0.03` is `3/100`, and `7.0` is `7`.
-/

namespace PathFinder

/-- `parseFloat(x) || d`: `none` models a missing/null/non-numeric field
(`parseFloat` gives `NaN`, which is falsy); a parsed `0` is also falsy, so
both cases fall back to the default `d`. -/
def jsNum (x : Option ℚ) (d : ℚ) : ℚ :=
  match x with
  | none => d
  | some v => if v = 0 then d else v

/-- One employer record, as stored in the `employers`/`co_employers` JSON
(fields written by `collectEmployerData` in `src/public/js/app.js`). -/
structure Employer where
  pay_type : String
  annual_salary : Option ℚ
  hourly_rate : Option ℚ
  hours_per_week : Option ℚ
  overtime_monthly : Option ℚ
  bonus_monthly : Option ℚ
  commission_monthly : Option ℚ
  is_previous : Bool

/-- One other-income record. -/
structure OtherIncome where
  monthly_amount : Option ℚ

/-- One asset record. -/
structure Asset where
  type : String
  balance : Option ℚ

/-- One debt record. -/
structure Debt where
  monthly_payment : Option ℚ

/-- A borrower snapshot: the parsed borrower row consumed by
`calculateBorrowerMetrics` in `src/routes/api.js`, which is also the form
state the client-side calculators in `src/public/js/app.js` read. -/
structure Borrower where
  has_coborrower : Bool
  employers : List Employer
  other_income : List OtherIncome
  co_employers : List Employer
  co_other_income : List OtherIncome
  assets : List Asset
  debts : List Debt
  loan_purpose : String
  purchase_price : Option ℚ
  down_payment_amount : Option ℚ
  property_value : Option ℚ
  current_loan_balance : Option ℚ
  cash_out_amount : Option ℚ
  interest_rate : Option ℚ
  property_taxes_annual : Option ℚ
  insurance_annual : Option ℚ
  hoa_monthly : Option ℚ

/-- `calculateEmployerIncome` of `src/public/js/app.js`.  The per-employer
expression inlined in the employer loops of the server's
`calculateBorrowerMetrics` (`src/routes/api.js`) is character-for-character
the same arithmetic, so both embeddings share this definition. -/
def calculateEmployerIncome (emp : Employer) : ℚ :=
  (if emp.pay_type = "salary" then
    jsNum emp.annual_salary 0 / 12
  else
    jsNum emp.hourly_rate 0 * jsNum emp.hours_per_week 0 * (4333 / 1000))
  + jsNum emp.overtime_monthly 0
  + jsNum emp.bonus_monthly 0
  + jsNum emp.commission_monthly 0

/-! ## Server engine: `calculateBorrowerMetrics`, `src/routes/api.js`

Each local `const` of the source function becomes a definition on
`Borrower`.  Note that the server loop sums over **all** employers — the
source has no `is_previous` check. -/

/-- `monthlyEmploymentIncome`: sum over the whole primary employer list. -/
def monthlyEmploymentIncome (b : Borrower) : ℚ :=
  (b.employers.map calculateEmployerIncome).sum

/-- `coMonthlyEmploymentIncome`: gated by `if (borrower.has_coborrower)`. -/
def coMonthlyEmploymentIncome (b : Borrower) : ℚ :=
  if b.has_coborrower then (b.co_employers.map calculateEmployerIncome).sum else 0

/-- `monthlyOtherIncome`. -/
def monthlyOtherIncome (b : Borrower) : ℚ :=
  (b.other_income.map (fun inc => jsNum inc.monthly_amount 0)).sum

/-- `coMonthlyOtherIncome`: gated by `if (borrower.has_coborrower)`. -/
def coMonthlyOtherIncome (b : Borrower) : ℚ :=
  if b.has_coborrower then (b.co_other_income.map (fun inc => jsNum inc.monthly_amount 0)).sum else 0

/-- `totalMonthlyIncome`. -/
def totalMonthlyIncome (b : Borrower) : ℚ :=
  monthlyEmploymentIncome b + coMonthlyEmploymentIncome b
    + monthlyOtherIncome b + coMonthlyOtherIncome b

/-- `annualIncome`. -/
def annualIncome (b : Borrower) : ℚ := totalMonthlyIncome b * 12

/-- `totalAssets`. -/
def totalAssets (b : Borrower) : ℚ :=
  (b.assets.map (fun a => jsNum a.balance 0)).sum

/-- `liquidAssets`: the source excludes exactly the literal type
`'401(k)/IRA'` via `!['401(k)/IRA'].includes(asset.type)`. -/
def liquidAssets (b : Borrower) : ℚ :=
  ((b.assets.filter (fun a => !(a.type == "401(k)/IRA"))).map (fun a => jsNum a.balance 0)).sum

/-- `totalMonthlyDebts`. -/
def totalMonthlyDebts (b : Borrower) : ℚ :=
  (b.debts.map (fun d => jsNum d.monthly_payment 0)).sum

/-- `purchasePrice = parseFloat(borrower.purchase_price) || 0`. -/
def purchasePrice (b : Borrower) : ℚ := jsNum b.purchase_price 0

/-- `downPaymentAmount = parseFloat(borrower.down_payment_amount) || 0`. -/
def downPaymentAmount (b : Borrower) : ℚ := jsNum b.down_payment_amount 0

/-- `loanAmount = purchasePrice - downPaymentAmount` — the server has no
`loan_purpose` branch and no clamp to `0`. -/
def loanAmount (b : Borrower) : ℚ := purchasePrice b - downPaymentAmount b

/-- `ltv`: against `purchasePrice`, guarded by `purchasePrice > 0`. -/
def ltv (b : Borrower) : ℚ :=
  if 0 < purchasePrice b then loanAmount b / purchasePrice b * 100 else 0

/-- `interestRate = parseFloat(borrower.interest_rate) || 7.0` — the
fallback is `7.0`, not `0`. -/
def interestRate (b : Borrower) : ℚ := jsNum b.interest_rate 7

/-- `monthlyRate = interestRate / 100 / 12`. -/
def monthlyRate (b : Borrower) : ℚ := interestRate b / 100 / 12

/-- `numPayments = 360` (30-year fixed). -/
def numPayments : ℕ := 360

/-- `principalAndInterest`: standard amortization formula, guarded by
`loanAmount > 0 && monthlyRate > 0`. -/
def principalAndInterest (b : Borrower) : ℚ :=
  if 0 < loanAmount b ∧ 0 < monthlyRate b then
    loanAmount b * (monthlyRate b * (1 + monthlyRate b) ^ numPayments)
      / ((1 + monthlyRate b) ^ numPayments - 1)
  else 0

/-- `monthlyTaxes = (parseFloat(property_taxes_annual) || 0) / 12`. -/
def monthlyTaxes (b : Borrower) : ℚ := jsNum b.property_taxes_annual 0 / 12

/-- `monthlyInsurance = (parseFloat(insurance_annual) || 0) / 12`. -/
def monthlyInsurance (b : Borrower) : ℚ := jsNum b.insurance_annual 0 / 12

/-- `monthlyHOA = parseFloat(hoa_monthly) || 0`. -/
def monthlyHOA (b : Borrower) : ℚ := jsNum b.hoa_monthly 0

/-- `totalPITI`. -/
def totalPITI (b : Borrower) : ℚ :=
  principalAndInterest b + monthlyTaxes b + monthlyInsurance b + monthlyHOA b

/-- `frontEndDTI`, guarded by `totalMonthlyIncome > 0`. -/
def frontEndDTI (b : Borrower) : ℚ :=
  if 0 < totalMonthlyIncome b then totalPITI b / totalMonthlyIncome b * 100 else 0

/-- `backEndDTI`, guarded by `totalMonthlyIncome > 0`. -/
def backEndDTI (b : Borrower) : ℚ :=
  if 0 < totalMonthlyIncome b then
    (totalMonthlyDebts b + totalPITI b) / totalMonthlyIncome b * 100
  else 0

/-- `currentDTI`, guarded by `totalMonthlyIncome > 0`. -/
def currentDTI (b : Borrower) : ℚ :=
  if 0 < totalMonthlyIncome b then totalMonthlyDebts b / totalMonthlyIncome b * 100 else 0

/-- The server's `calculateMaxPurchase` closure (`src/routes/api.js`): note
the down-payment fraction is the borrower's own `downPaymentAmount /
purchasePrice` when `purchasePrice > 0`, with `0.03` only as fallback. -/
def calculateMaxPurchase (b : Borrower) (targetDTI : ℚ) : ℚ :=
  if totalMonthlyIncome b ≤ 0 then 0
  else
    let maxTotalPayment := totalMonthlyIncome b * targetDTI / 100 - totalMonthlyDebts b
    let maxPITI := maxTotalPayment
    let maxPI := maxPITI - monthlyTaxes b - monthlyInsurance b - monthlyHOA b
    if maxPI ≤ 0 ∨ monthlyRate b ≤ 0 then 0
    else
      let maxLoan := maxPI * ((1 + monthlyRate b) ^ numPayments - 1)
        / (monthlyRate b * (1 + monthlyRate b) ^ numPayments)
      let downPaymentPercent := if 0 < purchasePrice b then downPaymentAmount b / purchasePrice b else 3 / 100
      maxLoan / (1 - downPaymentPercent)

/-- `cashToClose = downPaymentAmount + loanAmount * 0.03 + (monthlyTaxes +
monthlyInsurance) * 6`. -/
def cashToClose (b : Borrower) : ℚ :=
  downPaymentAmount b + loanAmount b * (3 / 100) + (monthlyTaxes b + monthlyInsurance b) * 6

/-- The record returned by the server's `calculateBorrowerMetrics`. -/
structure Metrics where
  monthlyEmploymentIncome : ℚ
  coMonthlyEmploymentIncome : ℚ
  monthlyOtherIncome : ℚ
  coMonthlyOtherIncome : ℚ
  totalMonthlyIncome : ℚ
  annualIncome : ℚ
  totalAssets : ℚ
  liquidAssets : ℚ
  totalMonthlyDebts : ℚ
  currentDTI : ℚ
  loanAmount : ℚ
  ltv : ℚ
  principalAndInterest : ℚ
  monthlyTaxes : ℚ
  monthlyInsurance : ℚ
  monthlyHOA : ℚ
  totalPITI : ℚ
  frontEndDTI : ℚ
  backEndDTI : ℚ
  maxPurchase43 : ℚ
  maxPurchase45 : ℚ
  maxPurchase50 : ℚ
  cashToClose : ℚ

/-- `calculateBorrowerMetrics` of `src/routes/api.js`. -/
def calculateBorrowerMetrics (b : Borrower) : Metrics where
  monthlyEmploymentIncome := monthlyEmploymentIncome b
  coMonthlyEmploymentIncome := coMonthlyEmploymentIncome b
  monthlyOtherIncome := monthlyOtherIncome b
  coMonthlyOtherIncome := coMonthlyOtherIncome b
  totalMonthlyIncome := totalMonthlyIncome b
  annualIncome := annualIncome b
  totalAssets := totalAssets b
  liquidAssets := liquidAssets b
  totalMonthlyDebts := totalMonthlyDebts b
  currentDTI := currentDTI b
  loanAmount := loanAmount b
  ltv := ltv b
  principalAndInterest := principalAndInterest b
  monthlyTaxes := monthlyTaxes b
  monthlyInsurance := monthlyInsurance b
  monthlyHOA := monthlyHOA b
  totalPITI := totalPITI b
  frontEndDTI := frontEndDTI b
  backEndDTI := backEndDTI b
  maxPurchase43 := calculateMaxPurchase b 43
  maxPurchase45 := calculateMaxPurchase b 45
  maxPurchase50 := calculateMaxPurchase b 50
  cashToClose := cashToClose b

/-! ## Client-side calculators, `src/public/js/app.js`

The client reads the live form; a `Borrower` models that form state.  The
client differs from the server in three load-bearing places: it skips
employers with `is_previous`, it branches on `loan_purpose` (with a
`Math.max(0, …)` clamp for purchases), and its `calculateMaxPurchase`
hardcodes a `0.03` down-payment fraction. -/

/-- The `primaryEmpIncome` accumulator of `updateIncomeCalculations`
(`src/public/js/app.js`): only employers with `!emp.is_previous` count. -/
def clientPrimaryEmploymentIncome (b : Borrower) : ℚ :=
  ((b.employers.filter (fun emp => !emp.is_previous)).map calculateEmployerIncome).sum

/-- `getMonthlyIncome` (`src/public/js/app.js`): primary and co employers
filtered by `!emp.is_previous`, plus both other-income lists.  (The client
does not gate the co lists on `has_coborrower`; an inactive co-borrower
simply has no form rows.) -/
def getMonthlyIncome (b : Borrower) : ℚ :=
  ((b.employers.filter (fun emp => !emp.is_previous)).map calculateEmployerIncome).sum
  + ((b.co_employers.filter (fun emp => !emp.is_previous)).map calculateEmployerIncome).sum
  + (b.other_income.map (fun inc => jsNum inc.monthly_amount 0)).sum
  + (b.co_other_income.map (fun inc => jsNum inc.monthly_amount 0)).sum

/-- The figures `updatePropertyCalculations` derives and displays. -/
structure PropertyCalc where
  loanAmount : ℚ
  ltv : ℚ
  pi : ℚ
  totalPITI : ℚ

/-- `updatePropertyCalculations` (`src/public/js/app.js`): branches on the
loan-purpose toggle (anything other than `'Refinance'` takes the purchase
branch, matching the `|| 'Purchase'` default), clamps the purchase loan
amount with `Math.max(0, …)`, and uses the refinance fields for refinance. -/
def updatePropertyCalculations (b : Borrower) : PropertyCalc :=
  let rate := jsNum b.interest_rate 7
  let monthlyTaxes := jsNum b.property_taxes_annual 0 / 12
  let monthlyInsurance := jsNum b.insurance_annual 0 / 12
  let hoaMonthly := jsNum b.hoa_monthly 0
  let la_ltv : ℚ × ℚ :=
    if b.loan_purpose = "Refinance" then
      let propertyValue := jsNum b.property_value 0
      let currentLoanBalance := jsNum b.current_loan_balance 0
      let cashOutAmount := jsNum b.cash_out_amount 0
      let la := currentLoanBalance + cashOutAmount
      (la, if 0 < propertyValue then la / propertyValue * 100 else 0)
    else
      let price := jsNum b.purchase_price 0
      let downPayment := jsNum b.down_payment_amount 0
      let la := max 0 (price - downPayment)
      (la, if 0 < price then la / price * 100 else 0)
  let la := la_ltv.1
  let monthlyRate := rate / 100 / 12
  let pi :=
    if 0 < la ∧ 0 < monthlyRate then
      la * (monthlyRate * (1 + monthlyRate) ^ numPayments)
        / ((1 + monthlyRate) ^ numPayments - 1)
    else 0
  { loanAmount := la, ltv := la_ltv.2, pi := pi,
    totalPITI := pi + monthlyTaxes + monthlyInsurance + hoaMonthly }

/-- The `{ price, piti }` pair the client's `calculateMaxPurchase` returns. -/
structure MaxPurchaseResult where
  price : ℚ
  piti : ℚ

/-- The client's `calculateMaxPurchase(monthlyIncome, monthlyDebts,
targetDTI)` (`src/public/js/app.js`): rate/taxes/insurance/HOA are read from
the form (`b`); the down-payment fraction is the hardcoded `0.03`. -/
def clientCalculateMaxPurchase (b : Borrower) (monthlyIncome monthlyDebts targetDTI : ℚ) :
    MaxPurchaseResult :=
  if monthlyIncome ≤ 0 then { price := 0, piti := 0 }
  else
    let rate := jsNum b.interest_rate 7
    let monthlyRate := rate / 100 / 12
    let maxTotalPayment := monthlyIncome * targetDTI / 100 - monthlyDebts
    let monthlyTaxes := jsNum b.property_taxes_annual 0 / 12
    let monthlyInsurance := jsNum b.insurance_annual 0 / 12
    let hoaMonthly := jsNum b.hoa_monthly 0
    let maxPI := maxTotalPayment - monthlyTaxes - monthlyInsurance - hoaMonthly
    if maxPI ≤ 0 ∨ monthlyRate ≤ 0 then { price := 0, piti := 0 }
    else
      let maxLoan := maxPI * ((1 + monthlyRate) ^ numPayments - 1)
        / (monthlyRate * (1 + monthlyRate) ^ numPayments)
      let downPaymentPercent : ℚ := 3 / 100
      let maxPrice := maxLoan / (1 - downPaymentPercent)
      { price := maxPrice, piti := maxPI + monthlyTaxes + monthlyInsurance + hoaMonthly }

/-! ## Shared facts about the amortization factors -/

/-- For a positive monthly rate, `(1 + r)^360` exceeds `1`. -/
lemma one_lt_pow_numPayments {r : ℚ} (hr : 0 < r) : 1 < (1 + r) ^ numPayments :=
  one_lt_pow₀ (by linarith) (by norm_num [numPayments])

/-- The inverted amortization factor `((1+r)^360 - 1) / (r·(1+r)^360)` is
positive for a positive monthly rate. -/
lemma invAmortFactor_pos {r : ℚ} (hr : 0 < r) :
    0 < ((1 + r) ^ numPayments - 1) / (r * (1 + r) ^ numPayments) := by
  have h1 := one_lt_pow_numPayments hr
  exact div_pos (by linarith) (mul_pos hr (by linarith))

/-- The forward amortization factor `r·(1+r)^360 / ((1+r)^360 - 1)` is
positive for a positive monthly rate. -/
lemma amortFactor_pos {r : ℚ} (hr : 0 < r) :
    0 < r * (1 + r) ^ numPayments / ((1 + r) ^ numPayments - 1) := by
  have h1 := one_lt_pow_numPayments hr
  exact div_pos (mul_pos hr (by linarith)) (by linarith)

/-! ## Concrete snapshots used by the claim theorems -/

/-- A fully blank borrower snapshot: mid-interview state with nothing
entered yet. -/
def emptyBorrower : Borrower where
  has_coborrower := false
  employers := []
  other_income := []
  co_employers := []
  co_other_income := []
  assets := []
  debts := []
  loan_purpose := "Purchase"
  purchase_price := none
  down_payment_amount := none
  property_value := none
  current_loan_balance := none
  cash_out_amount := none
  interest_rate := none
  property_taxes_annual := none
  insurance_annual := none
  hoa_monthly := none

/-- A salaried employer at 120000/year marked as a previous employer. -/
def prevSalariedEmployer : Employer where
  pay_type := "salary"
  annual_salary := some 120000
  hourly_rate := none
  hours_per_week := none
  overtime_monthly := none
  bonus_monthly := none
  commission_monthly := none
  is_previous := true

/-- Snapshot with a single previous salaried employer in the primary list. -/
def borrowerPrevEmp : Borrower := { emptyBorrower with employers := [prevSalariedEmployer] }

/-- Same snapshot with the `is_previous` flag cleared. -/
def borrowerCurrEmp : Borrower :=
  { emptyBorrower with employers := [{ prevSalariedEmployer with is_previous := false }] }

/-- A refinance snapshot: property value 400000, current balance 200000,
cash-out 50000, no purchase fields entered. -/
def borrowerRefi : Borrower := { emptyBorrower with
  loan_purpose := "Refinance"
  property_value := some 400000
  current_loan_balance := some 200000
  cash_out_amount := some 50000 }

/-- A purchase snapshot whose down payment (150000) exceeds the purchase
price (100000). -/
def borrowerBigDown : Borrower := { emptyBorrower with
  purchase_price := some 100000
  down_payment_amount := some 150000 }

/-! ## Claim theorems -/

/-- **C1.** The claim says an employer with `isPrevious = true` contributes
`0` to the employment-income totals.  The server's
`calculateBorrowerMetrics` has no `is_previous` check: the single previous
salaried employer at 120000 yields `monthlyEmploymentIncome = 10000` on the
server whether or not the flag is set, while the client-side
`updateIncomeCalculations` accumulator (modelled by
`clientPrimaryEmploymentIncome`) excludes it exactly as the claim states. -/
theorem c1_server_includes_previous_employer :
    (calculateBorrowerMetrics borrowerPrevEmp).monthlyEmploymentIncome = 10000 ∧
    (calculateBorrowerMetrics borrowerCurrEmp).monthlyEmploymentIncome = 10000 ∧
    clientPrimaryEmploymentIncome borrowerPrevEmp = 0 ∧
    clientPrimaryEmploymentIncome borrowerCurrEmp = 10000 := by
  refine ⟨?_, ?_, ?_, ?_⟩ <;>
    norm_num [calculateBorrowerMetrics, monthlyEmploymentIncome,
      clientPrimaryEmploymentIncome, borrowerPrevEmp, borrowerCurrEmp,
      prevSalariedEmployer, emptyBorrower, calculateEmployerIncome, jsNum]

/-- **C2.** The claim says `computeMetrics` on a Refinance snapshot returns
`loanAmount = currentLoanBalance + cashOutAmount` and
`ltv = loanAmount / propertyValue × 100`.  The server's
`calculateBorrowerMetrics` ignores `loan_purpose` entirely and computes
`loanAmount = purchasePrice − downPaymentAmount = 0` on the refinance
snapshot; only the client-side `updatePropertyCalculations` implements the
claimed branch (250000 and 62.5%). -/
theorem c2_server_ignores_refinance :
    (calculateBorrowerMetrics borrowerRefi).loanAmount = 0 ∧
    (calculateBorrowerMetrics borrowerRefi).ltv = 0 ∧
    (updatePropertyCalculations borrowerRefi).loanAmount = 250000 ∧
    (updatePropertyCalculations borrowerRefi).ltv = 125 / 2 := by
  refine ⟨?_, ?_, ?_, ?_⟩ <;>
    norm_num [calculateBorrowerMetrics, updatePropertyCalculations, loanAmount, ltv,
      purchasePrice, downPaymentAmount, borrowerRefi, emptyBorrower, jsNum]

/-- **C4.** The claim says a Purchase snapshot's `loanAmount` equals
`max(0, purchasePrice − downPaymentAmount)` and is never negative.  The
server's `calculateBorrowerMetrics` has no clamp: with price 100000 and
down payment 150000 it returns `-50000`; only the client-side
`updatePropertyCalculations` clamps with `Math.max(0, …)`. -/
theorem c4_server_loan_amount_negative :
    (calculateBorrowerMetrics borrowerBigDown).loanAmount = -50000 ∧
    (updatePropertyCalculations borrowerBigDown).loanAmount = 0 := by
  refine ⟨?_, ?_⟩ <;>
    norm_num [calculateBorrowerMetrics, updatePropertyCalculations, loanAmount,
      purchasePrice, downPaymentAmount, borrowerBigDown, emptyBorrower, jsNum]

/-- **C7.** Zero-income safety: with all four income lists empty the
server's `calculateBorrowerMetrics` returns `totalMonthlyIncome = 0`, all
three DTI ratios `0`, and all three max-purchase tiers `0` — every division
by income is guarded, so no division by zero occurs. -/
theorem c7_zero_income_safety (b : Borrower)
    (h1 : b.employers = []) (h2 : b.other_income = [])
    (h3 : b.co_employers = []) (h4 : b.co_other_income = []) :
    (calculateBorrowerMetrics b).totalMonthlyIncome = 0 ∧
    (calculateBorrowerMetrics b).currentDTI = 0 ∧
    (calculateBorrowerMetrics b).frontEndDTI = 0 ∧
    (calculateBorrowerMetrics b).backEndDTI = 0 ∧
    (calculateBorrowerMetrics b).maxPurchase43 = 0 ∧
    (calculateBorrowerMetrics b).maxPurchase45 = 0 ∧
    (calculateBorrowerMetrics b).maxPurchase50 = 0 := by
  have hinc : totalMonthlyIncome b = 0 := by
    simp [totalMonthlyIncome, monthlyEmploymentIncome, coMonthlyEmploymentIncome,
      monthlyOtherIncome, coMonthlyOtherIncome, h1, h2, h3, h4]
  refine ⟨hinc, ?_, ?_, ?_, ?_, ?_, ?_⟩ <;>
    simp [calculateBorrowerMetrics, currentDTI, frontEndDTI, backEndDTI,
      calculateMaxPurchase, hinc]

/-- Witness for C7 at the blank snapshot. -/
theorem c7_zero_income_safety_witness :
    (calculateBorrowerMetrics emptyBorrower).totalMonthlyIncome = 0 ∧
    (calculateBorrowerMetrics emptyBorrower).currentDTI = 0 ∧
    (calculateBorrowerMetrics emptyBorrower).frontEndDTI = 0 ∧
    (calculateBorrowerMetrics emptyBorrower).backEndDTI = 0 ∧
    (calculateBorrowerMetrics emptyBorrower).maxPurchase43 = 0 ∧
    (calculateBorrowerMetrics emptyBorrower).maxPurchase45 = 0 ∧
    (calculateBorrowerMetrics emptyBorrower).maxPurchase50 = 0 :=
  c7_zero_income_safety emptyBorrower rfl rfl rfl rfl

/-- **C8.** Co-borrower gating on the server: with `has_coborrower = false`
the co-employment and co-other income metrics are `0` and
`totalMonthlyIncome` is what it would be with empty co-lists; flipping
`has_coborrower` to `true` with identical co-data raises
`totalMonthlyIncome` by exactly the co-income sum. -/
theorem c8_coborrower_gating (b : Borrower) (h : b.has_coborrower = false) :
    (calculateBorrowerMetrics b).coMonthlyEmploymentIncome = 0 ∧
    (calculateBorrowerMetrics b).coMonthlyOtherIncome = 0 ∧
    (calculateBorrowerMetrics b).totalMonthlyIncome =
      (calculateBorrowerMetrics
        { b with co_employers := [], co_other_income := [] }).totalMonthlyIncome ∧
    (calculateBorrowerMetrics { b with has_coborrower := true }).totalMonthlyIncome =
      (calculateBorrowerMetrics b).totalMonthlyIncome
        + ((b.co_employers.map calculateEmployerIncome).sum
            + (b.co_other_income.map (fun inc => jsNum inc.monthly_amount 0)).sum) := by
  refine ⟨?_, ?_, ?_, ?_⟩ <;>
    simp [calculateBorrowerMetrics, totalMonthlyIncome, monthlyEmploymentIncome,
      coMonthlyEmploymentIncome, monthlyOtherIncome, coMonthlyOtherIncome, h]
  ring

/-- A snapshot carrying co-borrower data (one salaried co-employer at
60000/year, one co other income of 500/month) while `has_coborrower` is
still false. -/
def borrowerCoData : Borrower := { emptyBorrower with
  co_employers := [{ prevSalariedEmployer with annual_salary := some 60000, is_previous := false }]
  co_other_income := [{ monthly_amount := some 500 }] }

/-- Witness for C8 at `borrowerCoData`: the gated totals are `0`, and with
the flag flipped the co-income sum `5000 + 500` shows up in full. -/
theorem c8_coborrower_gating_witness :
    borrowerCoData.has_coborrower = false ∧
    (calculateBorrowerMetrics borrowerCoData).coMonthlyEmploymentIncome = 0 ∧
    (calculateBorrowerMetrics borrowerCoData).coMonthlyOtherIncome = 0 ∧
    (calculateBorrowerMetrics
      { borrowerCoData with has_coborrower := true }).totalMonthlyIncome = 5500 := by
  have h := c8_coborrower_gating borrowerCoData rfl
  refine ⟨rfl, h.1, h.2.1, ?_⟩
  rw [h.2.2.2]
  norm_num [calculateBorrowerMetrics, totalMonthlyIncome, monthlyEmploymentIncome,
    coMonthlyEmploymentIncome, monthlyOtherIncome, coMonthlyOtherIncome,
    calculateEmployerIncome, prevSalariedEmployer, borrowerCoData, emptyBorrower, jsNum]

/-- **C9.** The server's `principalAndInterest` is the standard 30-year
(360-payment) amortization formula at `monthlyRate = rate / 100 / 12` when
`loanAmount > 0` and `monthlyRate > 0`, and `0` otherwise.  Stated for
snapshots whose interest-rate field is present and non-zero, so that the
effective rate is the snapshot's own `interestRatePercent`. -/
theorem c9_principal_and_interest_formula (b : Borrower) (rp : ℚ)
    (h1 : b.interest_rate = some rp) (h2 : rp ≠ 0) :
    ((0 < (calculateBorrowerMetrics b).loanAmount ∧ 0 < rp / 100 / 12) →
      (calculateBorrowerMetrics b).principalAndInterest =
        (calculateBorrowerMetrics b).loanAmount
          * (rp / 100 / 12 * (1 + rp / 100 / 12) ^ 360)
          / ((1 + rp / 100 / 12) ^ 360 - 1)) ∧
    (¬(0 < (calculateBorrowerMetrics b).loanAmount ∧ 0 < rp / 100 / 12) →
      (calculateBorrowerMetrics b).principalAndInterest = 0) := by
  have hr : monthlyRate b = rp / 100 / 12 := by
    simp [monthlyRate, interestRate, jsNum, h1, h2]
  constructor <;> intro hc <;>
    simp only [calculateBorrowerMetrics, principalAndInterest, numPayments, hr] at hc ⊢
  · rw [if_pos hc]
  · rw [if_neg hc]

/-- A purchase snapshot at price 100000, no down payment, rate 7%. -/
def borrowerSevenPct : Borrower := { emptyBorrower with
  purchase_price := some 100000
  interest_rate := some 7 }

/-- Witness for C9 at `borrowerSevenPct`. -/
theorem c9_principal_and_interest_formula_witness :
    borrowerSevenPct.interest_rate = some 7 ∧
    (7 : ℚ) ≠ 0 ∧
    0 < (calculateBorrowerMetrics borrowerSevenPct).loanAmount ∧
    (calculateBorrowerMetrics borrowerSevenPct).principalAndInterest =
      (calculateBorrowerMetrics borrowerSevenPct).loanAmount
        * ((7 : ℚ) / 100 / 12 * (1 + (7 : ℚ) / 100 / 12) ^ 360)
        / ((1 + (7 : ℚ) / 100 / 12) ^ 360 - 1) := by
  have hla : (calculateBorrowerMetrics borrowerSevenPct).loanAmount = 100000 := by
    norm_num [calculateBorrowerMetrics, loanAmount, purchasePrice, downPaymentAmount,
      borrowerSevenPct, emptyBorrower, jsNum]
  have h := c9_principal_and_interest_formula borrowerSevenPct 7 rfl (by norm_num)
  refine ⟨rfl, by norm_num, by rw [hla]; norm_num, h.1 ⟨by rw [hla]; norm_num, by norm_num⟩⟩

/-- An hourly employer: 50/hour, 40 hours/week, no extras. -/
def hourlyEmployer : Employer where
  pay_type := "hourly"
  annual_salary := none
  hourly_rate := some 50
  hours_per_week := some 40
  overtime_monthly := none
  bonus_monthly := none
  commission_monthly := none
  is_previous := false

/-- **C10.** Any employer whose `pay_type` is not the literal string
`'salary'` — absent, empty, or misspelled values included — gets the hourly
base formula `hourlyRate × hoursPerWeek × 4.333` (each factor `0` when the
field is absent), with `overtimeMonthly`, `bonusMonthly` and
`commissionMonthly` still added; there is no third branch for unknown pay
types. -/
theorem c10_non_salary_uses_hourly_formula (b : Borrower) (emp : Employer)
    (h1 : b.employers = [emp]) (h2 : emp.pay_type ≠ "salary") :
    (calculateBorrowerMetrics b).monthlyEmploymentIncome =
      jsNum emp.hourly_rate 0 * jsNum emp.hours_per_week 0 * (4333 / 1000)
        + jsNum emp.overtime_monthly 0 + jsNum emp.bonus_monthly 0
        + jsNum emp.commission_monthly 0 := by
  simp [calculateBorrowerMetrics, monthlyEmploymentIncome, h1,
    calculateEmployerIncome, h2]

/-- Witness for C10: the hourly employer above with a misspelled pay type
would behave identically; here `pay_type = "hourly"` yields
`50 × 40 × 4.333 = 8666`. -/
theorem c10_non_salary_uses_hourly_formula_witness :
    hourlyEmployer.pay_type ≠ "salary" ∧
    (calculateBorrowerMetrics
      { emptyBorrower with employers := [hourlyEmployer] }).monthlyEmploymentIncome = 8666 := by
  refine ⟨by decide, ?_⟩
  rw [c10_non_salary_uses_hourly_formula
    { emptyBorrower with employers := [hourlyEmployer] } hourlyEmployer rfl (by decide)]
  norm_num [hourlyEmployer, jsNum]

/-! ## C5: missing-field coercion

The claim says every missing/null/non-numeric numeric field — including the
interest rate — is coerced to `0`.  The source reads
`parseFloat(borrower.interest_rate) || 7.0`: the interest rate falls back
to `7.0` (and an explicit `0` is falsy, so it too becomes `7.0`).  Every
other numeric field does coerce to `0`; `normalizeBorrower` makes that
replacement explicit. -/

/-- A purchase snapshot with no interest rate entered. -/
def borrowerNoRate : Borrower := { emptyBorrower with purchase_price := some 100000 }

/-- **C5 counterexample.** With the interest-rate field missing, the server
uses `7.0`, not `0`: the effective `interestRate` is `7`, and the computed
`principalAndInterest` on a 100000 loan is non-zero, whereas a rate coerced
to `0` would force `principalAndInterest = 0` through the
`monthlyRate > 0` guard. -/
theorem c5_missing_rate_is_seven :
    interestRate borrowerNoRate = 7 ∧
    (calculateBorrowerMetrics borrowerNoRate).principalAndInterest ≠ 0 := by
  constructor
  · norm_num [interestRate, borrowerNoRate, emptyBorrower, jsNum]
  · norm_num [calculateBorrowerMetrics, principalAndInterest, loanAmount, purchasePrice,
      downPaymentAmount, monthlyRate, interestRate, numPayments, borrowerNoRate,
      emptyBorrower, jsNum]

/-- Replace a parse-or-zero field by its explicit coerced value: `none`
(missing/null/non-numeric) becomes an explicit `some 0`. -/
def norm0 (x : Option ℚ) : Option ℚ := some (jsNum x 0)

/-- Coerce every numeric field of an employer to its parse-or-zero value. -/
def normEmployer (emp : Employer) : Employer := { emp with
  annual_salary := norm0 emp.annual_salary
  hourly_rate := norm0 emp.hourly_rate
  hours_per_week := norm0 emp.hours_per_week
  overtime_monthly := norm0 emp.overtime_monthly
  bonus_monthly := norm0 emp.bonus_monthly
  commission_monthly := norm0 emp.commission_monthly }

/-- Coerce an other-income record. -/
def normOtherIncome (inc : OtherIncome) : OtherIncome :=
  { monthly_amount := norm0 inc.monthly_amount }

/-- Coerce an asset record. -/
def normAsset (a : Asset) : Asset := { a with balance := norm0 a.balance }

/-- Coerce a debt record. -/
def normDebt (d : Debt) : Debt := { d with monthly_payment := norm0 d.monthly_payment }

/-- The coercion the engine actually applies before use: every monetary
field becomes an explicit `0` when missing, and the interest rate becomes
its `7.0`-defaulted value. -/
def normalizeBorrower (b : Borrower) : Borrower := { b with
  employers := b.employers.map normEmployer
  other_income := b.other_income.map normOtherIncome
  co_employers := b.co_employers.map normEmployer
  co_other_income := b.co_other_income.map normOtherIncome
  assets := b.assets.map normAsset
  debts := b.debts.map normDebt
  purchase_price := norm0 b.purchase_price
  down_payment_amount := norm0 b.down_payment_amount
  property_value := norm0 b.property_value
  current_loan_balance := norm0 b.current_loan_balance
  cash_out_amount := norm0 b.cash_out_amount
  interest_rate := some (jsNum b.interest_rate 7)
  property_taxes_annual := norm0 b.property_taxes_annual
  insurance_annual := norm0 b.insurance_annual
  hoa_monthly := norm0 b.hoa_monthly }

lemma jsNum_norm0 (x : Option ℚ) : jsNum (norm0 x) 0 = jsNum x 0 := by
  cases x with
  | none => simp [norm0, jsNum]
  | some v => by_cases hv : v = 0 <;> simp [norm0, jsNum, hv]

lemma jsNum_defaulted_rate (x : Option ℚ) : jsNum (some (jsNum x 7)) 7 = jsNum x 7 := by
  cases x with
  | none => simp [jsNum]
  | some v => by_cases hv : v = 0 <;> simp [jsNum, hv]

lemma calculateEmployerIncome_norm (emp : Employer) :
    calculateEmployerIncome (normEmployer emp) = calculateEmployerIncome emp := by
  simp [calculateEmployerIncome, normEmployer, jsNum_norm0]

lemma monthlyEmploymentIncome_norm (b : Borrower) :
    monthlyEmploymentIncome (normalizeBorrower b) = monthlyEmploymentIncome b := by
  simp [monthlyEmploymentIncome, normalizeBorrower, List.map_map, Function.comp_def,
    calculateEmployerIncome_norm]

lemma coMonthlyEmploymentIncome_norm (b : Borrower) :
    coMonthlyEmploymentIncome (normalizeBorrower b) = coMonthlyEmploymentIncome b := by
  simp [coMonthlyEmploymentIncome, normalizeBorrower, List.map_map, Function.comp_def,
    calculateEmployerIncome_norm]

lemma monthlyOtherIncome_norm (b : Borrower) :
    monthlyOtherIncome (normalizeBorrower b) = monthlyOtherIncome b := by
  simp [monthlyOtherIncome, normalizeBorrower, List.map_map, Function.comp_def,
    normOtherIncome, jsNum_norm0]

lemma coMonthlyOtherIncome_norm (b : Borrower) :
    coMonthlyOtherIncome (normalizeBorrower b) = coMonthlyOtherIncome b := by
  simp [coMonthlyOtherIncome, normalizeBorrower, List.map_map, Function.comp_def,
    normOtherIncome, jsNum_norm0]

lemma totalMonthlyIncome_norm (b : Borrower) :
    totalMonthlyIncome (normalizeBorrower b) = totalMonthlyIncome b := by
  simp [totalMonthlyIncome, monthlyEmploymentIncome_norm, coMonthlyEmploymentIncome_norm,
    monthlyOtherIncome_norm, coMonthlyOtherIncome_norm]

lemma totalAssets_norm (b : Borrower) :
    totalAssets (normalizeBorrower b) = totalAssets b := by
  simp [totalAssets, normalizeBorrower, List.map_map, Function.comp_def, normAsset, jsNum_norm0]

lemma liquid_sum_norm (l : List Asset) :
    (((l.map normAsset).filter (fun a => !(a.type == "401(k)/IRA"))).map
        (fun a => jsNum a.balance 0)).sum
      = ((l.filter (fun a => !(a.type == "401(k)/IRA"))).map
        (fun a => jsNum a.balance 0)).sum := by
  induction l with
  | nil => simp
  | cons a l ih =>
    by_cases h : a.type == "401(k)/IRA" <;>
      simp [normAsset, h, ih, jsNum_norm0, List.filter_cons]

lemma liquidAssets_norm (b : Borrower) :
    liquidAssets (normalizeBorrower b) = liquidAssets b := by
  simpa [liquidAssets, normalizeBorrower] using liquid_sum_norm b.assets

lemma totalMonthlyDebts_norm (b : Borrower) :
    totalMonthlyDebts (normalizeBorrower b) = totalMonthlyDebts b := by
  simp [totalMonthlyDebts, normalizeBorrower, List.map_map, Function.comp_def, normDebt, jsNum_norm0]

lemma purchasePrice_norm (b : Borrower) :
    purchasePrice (normalizeBorrower b) = purchasePrice b := by
  simp [purchasePrice, normalizeBorrower, jsNum_norm0]

lemma downPaymentAmount_norm (b : Borrower) :
    downPaymentAmount (normalizeBorrower b) = downPaymentAmount b := by
  simp [downPaymentAmount, normalizeBorrower, jsNum_norm0]

lemma loanAmount_norm (b : Borrower) :
    loanAmount (normalizeBorrower b) = loanAmount b := by
  simp [loanAmount, purchasePrice_norm, downPaymentAmount_norm]

lemma ltv_norm (b : Borrower) : ltv (normalizeBorrower b) = ltv b := by
  simp [ltv, purchasePrice_norm, loanAmount_norm]

lemma monthlyRate_norm (b : Borrower) :
    monthlyRate (normalizeBorrower b) = monthlyRate b := by
  simp [monthlyRate, interestRate, normalizeBorrower, jsNum_defaulted_rate]

lemma principalAndInterest_norm (b : Borrower) :
    principalAndInterest (normalizeBorrower b) = principalAndInterest b := by
  simp [principalAndInterest, loanAmount_norm, monthlyRate_norm]

lemma monthlyTaxes_norm (b : Borrower) :
    monthlyTaxes (normalizeBorrower b) = monthlyTaxes b := by
  simp [monthlyTaxes, normalizeBorrower, jsNum_norm0]

lemma monthlyInsurance_norm (b : Borrower) :
    monthlyInsurance (normalizeBorrower b) = monthlyInsurance b := by
  simp [monthlyInsurance, normalizeBorrower, jsNum_norm0]

lemma monthlyHOA_norm (b : Borrower) :
    monthlyHOA (normalizeBorrower b) = monthlyHOA b := by
  simp [monthlyHOA, normalizeBorrower, jsNum_norm0]

lemma totalPITI_norm (b : Borrower) :
    totalPITI (normalizeBorrower b) = totalPITI b := by
  simp [totalPITI, principalAndInterest_norm, monthlyTaxes_norm, monthlyInsurance_norm,
    monthlyHOA_norm]

lemma calculateMaxPurchase_norm (b : Borrower) (t : ℚ) :
    calculateMaxPurchase (normalizeBorrower b) t = calculateMaxPurchase b t := by
  simp [calculateMaxPurchase, totalMonthlyIncome_norm, totalMonthlyDebts_norm,
    monthlyTaxes_norm, monthlyInsurance_norm, monthlyHOA_norm, monthlyRate_norm,
    purchasePrice_norm, downPaymentAmount_norm]

lemma cashToClose_norm (b : Borrower) :
    cashToClose (normalizeBorrower b) = cashToClose b := by
  simp [cashToClose, downPaymentAmount_norm, loanAmount_norm, monthlyTaxes_norm,
    monthlyInsurance_norm]

/-- **C5 (amended).** `calculateBorrowerMetrics` is a total function of the
snapshot (it is defined for every well-typed `Borrower` and produces a
`Metrics` record), and every missing, null, or non-numeric monetary field
is coerced to `0` before use — with the one exception the counterexample
forces: the interest rate is coerced to its `7.0` default (also when it
parses to `0`).  Formally, applying those coercions explicitly
(`normalizeBorrower`) never changes the output. -/
theorem c5_missing_fields_coerce (b : Borrower) :
    calculateBorrowerMetrics (normalizeBorrower b) = calculateBorrowerMetrics b := by
  simp [calculateBorrowerMetrics, monthlyEmploymentIncome_norm,
    coMonthlyEmploymentIncome_norm, monthlyOtherIncome_norm, coMonthlyOtherIncome_norm,
    totalMonthlyIncome_norm, annualIncome, totalAssets_norm, liquidAssets_norm,
    totalMonthlyDebts_norm, currentDTI, frontEndDTI, backEndDTI, totalPITI_norm,
    loanAmount_norm, ltv_norm, principalAndInterest_norm, monthlyTaxes_norm,
    monthlyInsurance_norm, monthlyHOA_norm, calculateMaxPurchase_norm, cashToClose_norm]

/-! ## C6: max-purchase monotonicity across DTI tiers -/

/-- Core monotonicity of the server's max-purchase arithmetic in the target
DTI, for a fixed context with positive income and a down-payment fraction
below `1`. -/
lemma maxPurchaseCore_mono {inc debts tx ins hoa r dpp t1 t2 : ℚ} (hinc : 0 < inc)
    (hdpp : dpp < 1) (ht : t1 ≤ t2) :
    (if inc * t1 / 100 - debts - tx - ins - hoa ≤ 0 ∨ r ≤ 0 then 0
     else (inc * t1 / 100 - debts - tx - ins - hoa) * ((1 + r) ^ numPayments - 1)
        / (r * (1 + r) ^ numPayments) / (1 - dpp))
    ≤ (if inc * t2 / 100 - debts - tx - ins - hoa ≤ 0 ∨ r ≤ 0 then 0
     else (inc * t2 / 100 - debts - tx - ins - hoa) * ((1 + r) ^ numPayments - 1)
        / (r * (1 + r) ^ numPayments) / (1 - dpp)) := by
  have hPI : inc * t1 / 100 - debts - tx - ins - hoa
      ≤ inc * t2 / 100 - debts - tx - ins - hoa := by
    have h1 : inc * t1 ≤ inc * t2 := mul_le_mul_of_nonneg_left ht hinc.le
    have h2 : inc * t1 / 100 ≤ inc * t2 / 100 :=
      (div_le_div_iff_of_pos_right (by norm_num)).mpr h1
    linarith
  have hd : (0:ℚ) < 1 - dpp := by linarith
  split_ifs with h1 h2 h2
  · exact le_refl 0
  · push_neg at h2
    have hA : (0:ℚ) < (1 + r) ^ numPayments - 1 := by
      have := one_lt_pow_numPayments h2.2
      linarith
    have hB : (0:ℚ) < r * (1 + r) ^ numPayments := by
      have := one_lt_pow_numPayments h2.2
      exact mul_pos h2.2 (by linarith)
    have := div_pos (div_pos (mul_pos h2.1 hA) hB) hd
    linarith
  · exfalso
    push_neg at h1
    rcases h2 with h2 | h2
    · linarith [h1.1]
    · linarith [h1.2]
  · push_neg at h1
    have hA : (0:ℚ) < (1 + r) ^ numPayments - 1 := by
      have := one_lt_pow_numPayments h1.2
      linarith
    have hB : (0:ℚ) < r * (1 + r) ^ numPayments := by
      have := one_lt_pow_numPayments h1.2
      exact mul_pos h1.2 (by linarith)
    apply (div_le_div_iff_of_pos_right hd).mpr
    apply (div_le_div_iff_of_pos_right hB).mpr
    exact mul_le_mul_of_nonneg_right hPI hA.le

/-- The server's assumed down-payment fraction is below `1` exactly when
a positive purchase price strictly exceeds the down payment (the fallback
`0.03` is below `1` anyway). -/
lemma downPaymentPercent_lt_one (b : Borrower)
    (h : 0 < purchasePrice b → downPaymentAmount b < purchasePrice b) :
    (if 0 < purchasePrice b then downPaymentAmount b / purchasePrice b else 3 / 100) < 1 := by
  split_ifs with hpp
  · exact (div_lt_one hpp).mpr (h hpp)
  · norm_num

/-- The server's `calculateMaxPurchase` is monotone in the target DTI as
long as the assumed down-payment fraction stays below `100%`. -/
lemma calculateMaxPurchase_mono (b : Borrower)
    (h : 0 < purchasePrice b → downPaymentAmount b < purchasePrice b)
    {t1 t2 : ℚ} (ht : t1 ≤ t2) :
    calculateMaxPurchase b t1 ≤ calculateMaxPurchase b t2 := by
  by_cases hinc : totalMonthlyIncome b ≤ 0
  · simp [calculateMaxPurchase, hinc]
  · push_neg at hinc
    simp only [calculateMaxPurchase, if_neg (not_le.mpr hinc)]
    exact maxPurchaseCore_mono hinc (downPaymentPercent_lt_one b h) ht

/-- A snapshot with monthly income 10000 whose down payment 200000 exceeds
its purchase price 100000: the assumed down-payment fraction is `2`, so
`1 − fraction` is negative and every positive tier flips sign. -/
def borrowerRevDown : Borrower := { emptyBorrower with
  other_income := [{ monthly_amount := some 10000 }]
  purchase_price := some 100000
  down_payment_amount := some 200000 }

/-- **C6 counterexample.** On `borrowerRevDown` (down payment exceeds the
purchase price, the case the claim explicitly includes) the server's tiers
are *reversed*: `maxPurchase43 ≤ maxPurchase45 ≤ maxPurchase50` fails,
because each tier is a negative price and a higher DTI ceiling is more
negative. -/
theorem c6_monotonicity_fails_counterexample :
    ¬ ((calculateBorrowerMetrics borrowerRevDown).maxPurchase43 ≤
          (calculateBorrowerMetrics borrowerRevDown).maxPurchase45 ∧
        (calculateBorrowerMetrics borrowerRevDown).maxPurchase45 ≤
          (calculateBorrowerMetrics borrowerRevDown).maxPurchase50) := by
  rintro ⟨ha, -⟩
  revert ha
  norm_num [calculateBorrowerMetrics, calculateMaxPurchase, totalMonthlyIncome,
    monthlyEmploymentIncome, coMonthlyEmploymentIncome, monthlyOtherIncome,
    coMonthlyOtherIncome, totalMonthlyDebts, monthlyTaxes, monthlyInsurance,
    monthlyHOA, monthlyRate, interestRate, purchasePrice, downPaymentAmount,
    numPayments, borrowerRevDown, emptyBorrower, jsNum]

/-- **C6 (amended).** For a fixed snapshot the three tiers returned by
`calculateBorrowerMetrics` satisfy `maxPurchase43 ≤ maxPurchase45 ≤
maxPurchase50` **provided** the assumed down-payment fraction is below
`100%`, i.e. when the snapshot has no positive purchase price or its down
payment is strictly below the purchase price.  (The counterexample above
shows the order reverses when `downPaymentAmount` exceeds a positive
`purchasePrice`.) -/
theorem c6_max_purchase_monotone (b : Borrower)
    (h : 0 < purchasePrice b → downPaymentAmount b < purchasePrice b) :
    (calculateBorrowerMetrics b).maxPurchase43 ≤ (calculateBorrowerMetrics b).maxPurchase45 ∧
    (calculateBorrowerMetrics b).maxPurchase45 ≤ (calculateBorrowerMetrics b).maxPurchase50 :=
  ⟨calculateMaxPurchase_mono b h (by norm_num), calculateMaxPurchase_mono b h (by norm_num)⟩

/-- A snapshot with monthly income 10000 (one other-income row) and nothing
else entered. -/
def borrowerIncomeOnly : Borrower :=
  { emptyBorrower with other_income := [{ monthly_amount := some 10000 }] }

/-- Witness for the amended C6 at `borrowerIncomeOnly`. -/
theorem c6_max_purchase_monotone_witness :
    (0 < purchasePrice borrowerIncomeOnly →
      downPaymentAmount borrowerIncomeOnly < purchasePrice borrowerIncomeOnly) ∧
    ((calculateBorrowerMetrics borrowerIncomeOnly).maxPurchase43 ≤
        (calculateBorrowerMetrics borrowerIncomeOnly).maxPurchase45 ∧
      (calculateBorrowerMetrics borrowerIncomeOnly).maxPurchase45 ≤
        (calculateBorrowerMetrics borrowerIncomeOnly).maxPurchase50) := by
  have hp : 0 < purchasePrice borrowerIncomeOnly →
      downPaymentAmount borrowerIncomeOnly < purchasePrice borrowerIncomeOnly := by
    norm_num [purchasePrice, downPaymentAmount, borrowerIncomeOnly, emptyBorrower, jsNum]
  exact ⟨hp, c6_max_purchase_monotone borrowerIncomeOnly hp⟩

/-! ## C3: client/server max-purchase agreement -/

/-- A snapshot with monthly income 10000, purchase price 100000 and a 20%
down payment (20000) — identical inputs handed to both implementations. -/
def borrowerTwentyDown : Borrower := { emptyBorrower with
  other_income := [{ monthly_amount := some 10000 }]
  purchase_price := some 100000
  down_payment_amount := some 20000 }

/-- **C3 counterexample.** On the same input tuple (income 10000, debts 0,
target DTI 43, default rate 7, taxes/insurance/HOA 0, purchase price
100000, down payment 20000) the server's `calculateMaxPurchase` divides the
affordable loan by `1 − 0.20` (the borrower's own down-payment fraction)
while the client's divides by `1 − 0.03`, so the two prices differ. -/
theorem c3_client_server_disagree :
    calculateMaxPurchase borrowerTwentyDown 43 ≠
      (clientCalculateMaxPurchase borrowerTwentyDown
        (totalMonthlyIncome borrowerTwentyDown)
        (totalMonthlyDebts borrowerTwentyDown) 43).price := by
  norm_num [calculateMaxPurchase, clientCalculateMaxPurchase, totalMonthlyIncome,
    monthlyEmploymentIncome, coMonthlyEmploymentIncome, monthlyOtherIncome,
    coMonthlyOtherIncome, totalMonthlyDebts, monthlyTaxes, monthlyInsurance,
    monthlyHOA, monthlyRate, interestRate, purchasePrice, downPaymentAmount,
    numPayments, borrowerTwentyDown, emptyBorrower, jsNum]

/-- **C3 (amended).** The two implementations agree exactly when no
positive purchase price is set (the server then falls back to the same
hardcoded `0.03` fraction the client always uses): for every snapshot
without a positive purchase price and every target DTI, the server's tier
price equals the client's price on the identical tuple of income, debts,
rate, taxes, insurance and HOA. -/
theorem c3_max_purchase_agree_when_no_price (b : Borrower) (t : ℚ)
    (h : ¬ 0 < purchasePrice b) :
    calculateMaxPurchase b t =
      (clientCalculateMaxPurchase b (totalMonthlyIncome b) (totalMonthlyDebts b) t).price := by
  by_cases hinc : totalMonthlyIncome b ≤ 0
  · simp [calculateMaxPurchase, clientCalculateMaxPurchase, hinc]
  · simp only [calculateMaxPurchase, clientCalculateMaxPurchase, monthlyTaxes,
      monthlyInsurance, monthlyHOA, monthlyRate, interestRate, if_neg hinc, if_neg h]
    split_ifs with h2
    · rfl
    · rfl

/-- Witness for the amended C3 at `borrowerIncomeOnly`, target DTI 43. -/
theorem c3_max_purchase_agree_witness :
    (¬ 0 < purchasePrice borrowerIncomeOnly) ∧
    calculateMaxPurchase borrowerIncomeOnly 43 =
      (clientCalculateMaxPurchase borrowerIncomeOnly
        (totalMonthlyIncome borrowerIncomeOnly)
        (totalMonthlyDebts borrowerIncomeOnly) 43).price := by
  have hp : ¬ 0 < purchasePrice borrowerIncomeOnly := by
    norm_num [purchasePrice, borrowerIncomeOnly, emptyBorrower, jsNum]
  exact ⟨hp, c3_max_purchase_agree_when_no_price borrowerIncomeOnly 43 hp⟩

end PathFinder
